import Mathlib

/-!
Verification development for the symptom-triage and appointment-booking
webhook backend (source: src/main.py).  The Python source is shallowly
embedded: pure helpers become Lean functions, the Firestore document store
becomes an explicit `Store` value threaded through the operations, and the
booking transaction becomes an atomic step of a small-step machine.  Machine
integers are modelled as Nat/Int; timestamps are modelled as minutes since an
epoch that falls on a Monday at midnight (Python `datetime.weekday()` returns
0 for Monday), so `weekday t = (t / 1440) % 7`.
-/

namespace SymptomsAnalyzer

/-! ## String helpers

Python string primitives used by the source (`in`, `.lower()`, `.split`,
`.strip`, space-join) are modelled on `List Char` so that every definition
reduces by computation. -/

/-- `startsWithChars pat s` is true when `pat` is a prefix of `s`. -/
def startsWithChars : List Char → List Char → Bool
  | [], _ => true
  | _ :: _, [] => false
  | p :: ps, c :: cs => p == c && startsWithChars ps cs

/-- `containsChars pat s`: `pat` occurs as a contiguous substring of `s`
(the semantics of the Python `in` operator on strings). -/
def containsChars (pat : List Char) : List Char → Bool
  | [] => pat.isEmpty
  | c :: cs => startsWithChars pat (c :: cs) || containsChars pat cs

/-- Python `pat in s` on strings. -/
def pythonIn (pat s : String) : Bool :=
  containsChars pat.toList s.toList

/-- Python `str.lower()` (ASCII case folding suffices for the source data). -/
def lowerString (s : String) : String :=
  String.mk (s.toList.map Char.toLower)

/-- Split a character list on a single separator character (the source only
ever splits on one-character separators: `/`, `-`, `T`, `:`, space). -/
def splitOnChar (sep : Char) (cs : List Char) : List (List Char) :=
  cs.foldr
    (fun c acc =>
      match acc with
      | h :: t => if c == sep then [] :: h :: t else (c :: h) :: t
      | [] => [[c]])
    [[]]

/-- Join character lists with a single space (the Python space-join). -/
def joinSpace : List (List Char) → List Char
  | [] => []
  | [x] => x
  | x :: y :: t => x ++ ' ' :: joinSpace (y :: t)

/-- Python whitespace class for `\s` and `str.strip()` (ASCII part). -/
def isSpacePy (c : Char) : Bool :=
  c == ' ' || c == '\t' || c == '\n' || c == '\r' || c == '\x0b' || c == '\x0c'

/-- Python `str.strip()`: drop whitespace from both ends. -/
def stripChars (cs : List Char) : List Char :=
  ((cs.dropWhile isSpacePy).reverse.dropWhile isSpacePy).reverse

/-- ASCII decimal digit test. -/
def isDigitChar (c : Char) : Bool :=
  '0' ≤ c && c ≤ '9'

/-- Numeric value of a digit string (caller has checked `isDigitChar`). -/
def digitsVal (cs : List Char) : Nat :=
  cs.foldl (fun a c => a * 10 + (c.toNat - 48)) 0

/-- Python user_name.split with a space separator and maxsplit 1: first
token and the space-joined
remainder, the remainder being empty when there is no space. -/
def splitName (s : String) : String × String :=
  match splitOnChar ' ' s.toList with
  | [] => (s, "")
  | h :: t => (String.mk h, String.mk (joinSpace t))

/-! ## Triage classifier (src/main.py lines 522-539) -/

/-- The four triage outcomes assigned to `symptom_result`. -/
inductive SymptomOutcome where
  | emergency
  | specialist
  | gp
  | self_care
deriving DecidableEq, Repr

/-- The string value the webhook stores in the `symptom_result` parameter. -/
def outcomeString : SymptomOutcome → String
  | .emergency => "emergency"
  | .specialist => "specialist"
  | .gp => "gp"
  | .self_care => "self_care"

/-- The space-joined and lowercased symptom text (line 522). -/
def symptomText (symptoms_list : List String) : String :=
  lowerString (String.mk (joinSpace (symptoms_list.map String.toList)))

/-- The emergency-keyword test of line 525: three case-lowered substring
checks against the joined symptom text. -/
def hasEmergencyKeyword (t : String) : Bool :=
  pythonIn "emergency" t || pythonIn "severe breathing" t || pythonIn "unconscious" t

/-- The triage decision of lines 525-539: emergency keywords first, then the
duration thresholds 14 and 3, defaulting to self-care. -/
def symptom_result (symptoms_list : List String) (symptom_duration_days : Int) :
    SymptomOutcome :=
  if hasEmergencyKeyword (symptomText symptoms_list) then .emergency
  else if 14 ≤ symptom_duration_days then .specialist
  else if 3 ≤ symptom_duration_days then .gp
  else .self_care

example : symptom_result ["fever"] 5 = .gp := by decide
example : symptom_result ["EMERGENCY pain"] 0 = .emergency := by decide
example : symptom_result ["cough"] 14 = .specialist := by decide
example : symptom_result ["cough"] 2 = .self_care := by decide

/-! ## Session parameter values

Dialogflow session parameters arrive as JSON-like values.  `PVal` models the
shapes the source inspects with `isinstance` checks and truthiness tests. -/

/-- A JSON-like session parameter value. -/
inductive PVal where
  | vstr (s : String)
  | vnum (n : Int)
  | vbool (b : Bool)
  | vnull
  | vdict (fields : List (String × PVal))
  | vlist (xs : List PVal)

/-- Python truthiness of a parameter value (empty string/dict/list, zero,
`False` and `None` are falsy). -/
def pyTruthy : PVal → Bool
  | .vstr s => !(s == "")
  | .vnum n => !(n == 0)
  | .vbool b => b
  | .vnull => false
  | .vdict f => !f.isEmpty
  | .vlist l => !l.isEmpty

/-- Python `int(x)` on a string: optional surrounding whitespace, optional
sign, then at least one decimal digit. -/
def parseIntPy (s : String) : Option Int :=
  match stripChars s.toList with
  | '-' :: rest =>
      if rest ≠ [] ∧ rest.all isDigitChar = true then some (-(digitsVal rest : Int)) else none
  | '+' :: rest =>
      if rest ≠ [] ∧ rest.all isDigitChar = true then some (digitsVal rest : Int) else none
  | cs =>
      if cs ≠ [] ∧ cs.all isDigitChar = true then some (digitsVal cs : Int) else none

/-- Python `int(x)` on a parameter value: numbers pass through, booleans count
as 0/1, numeric strings are parsed, everything else raises (modelled `none`,
the exception is caught by the caller in the source). -/
def toIntPy : PVal → Option Int
  | .vnum n => some n
  | .vbool b => some (if b then 1 else 0)
  | .vstr s => parseIntPy s
  | _ => none

/-! ## Date-of-birth normalizer (src/main.py lines 38-65) -/

/-- Leap-year rule used by `datetime` validation. -/
def isLeapYear (y : Nat) : Bool :=
  y % 4 == 0 && (y % 100 != 0 || y % 400 == 0)

/-- Length of a month, for `datetime` calendar validation. -/
def daysInMonth (y m : Nat) : Nat :=
  if m = 2 then (if isLeapYear y then 29 else 28)
  else if m = 4 ∨ m = 6 ∨ m = 9 ∨ m = 11 then 30
  else 31

/-- A numeric field of a `strptime` pattern: between `minLen` and `maxLen`
digits whose value lies in `lo..hi` (this is exactly the set matched by the
CPython `_strptime` regex fragments for `%m`, `%d`, `%Y`, `%H`, `%M`, `%S`). -/
def parseNumField (cs : List Char) (minLen maxLen lo hi : Nat) : Option Nat :=
  if minLen ≤ cs.length ∧ cs.length ≤ maxLen ∧ cs.all isDigitChar = true then
    let v := digitsVal cs
    if lo ≤ v ∧ v ≤ hi then some v else none
  else none

/-- datetime.strptime with format %m/%d/%Y reduced to the (year, month, day)
triple: 1-2 digit month 1..12, 1-2 digit day 1..31, exactly 4 digit year
(years below 1 are rejected by the `datetime` constructor), full-string
match, and calendar validation of the day against the month. -/
def parse_mmddyyyy (s : String) : Option (Nat × Nat × Nat) :=
  match splitOnChar '/' s.toList with
  | [ms, ds, ys] =>
    match parseNumField ms 1 2 1 12, parseNumField ds 1 2 1 31,
          parseNumField ys 4 4 1 9999 with
    | some m, some d, some y => if d ≤ daysInMonth y m then some (y, m, d) else none
    | _, _, _ => none
  | _ => none

/-- datetime.strptime with format %Y-%m-%dT%H:%M:%SZ reduced to the (year, month,
day) triple, with the same per-field digit and range constraints. -/
def parse_iso8601 (s : String) : Option (Nat × Nat × Nat) :=
  match splitOnChar 'T' s.toList with
  | [datePart, timePart] =>
    match splitOnChar '-' datePart with
    | [ys, ms, ds] =>
      match timePart.getLast? with
      | some 'Z' =>
        match splitOnChar ':' timePart.dropLast with
        | [hs, mins, secs] =>
          match parseNumField ys 4 4 1 9999, parseNumField ms 1 2 1 12,
                parseNumField ds 1 2 1 31, parseNumField hs 1 2 0 23,
                parseNumField mins 1 2 0 59, parseNumField secs 1 2 0 59 with
          | some y, some m, some d, some _, some _, some _ =>
              if d ≤ daysInMonth y m then some (y, m, d) else none
          | _, _, _, _, _, _ => none
        | _ => none
      | _ => none
    | _ => none
  | _ => none

/-- A natural number rendered in decimal, left-padded with zeros to width `w`. -/
def padNatW (w : Nat) (m : Nat) : String :=
  let s := toString m
  if s.length < w then String.mk (List.replicate (w - s.length) '0') ++ s else s

/-- Python integer formatting with zero padding: the sign counts into the
requested width. -/
def padInt (w : Nat) (n : Int) : String :=
  if n < 0 then "-" ++ padNatW (w - 1) n.natAbs else padNatW w n.natAbs

/-- strftime with format %Y-%m-%d on a validated parsed date (glibc `%Y`
prints the year unpadded; `%m` and `%d` are zero-padded to two digits). -/
def fmtStrfDate (y m d : Nat) : String :=
  toString y ++ "-" ++ padNatW 2 m ++ "-" ++ padNatW 2 d

/-- Key lookup in a parameter dictionary. -/
def lookupField (fields : List (String × PVal)) (k : String) : Option PVal :=
  (fields.find? (fun kv => kv.1 == k)).map (fun kv => kv.2)

/-- `_get_date_string_from_dob_param` (lines 38-65): strings are tried as
`MM/DD/YYYY` then as an ISO-8601 timestamp; dictionaries carrying `year`,
`month` and `day` are formatted zero-padded to widths 4, 2 and 2
after `int()` conversion of the three fields; every other shape yields
`None`. -/
def get_date_string_from_dob_param : PVal → Option String
  | .vstr s =>
    (match parse_mmddyyyy s with
     | some (y, m, d) => some (fmtStrfDate y m d)
     | none =>
       match parse_iso8601 s with
       | some (y, m, d) => some (fmtStrfDate y m d)
       | none => none)
  | .vdict fields =>
    if (lookupField fields "year").isSome ∧ (lookupField fields "month").isSome ∧
        (lookupField fields "day").isSome then
      match (lookupField fields "year").bind toIntPy,
            (lookupField fields "month").bind toIntPy,
            (lookupField fields "day").bind toIntPy with
      | some y, some m, some d =>
          some (padInt 4 y ++ "-" ++ padInt 2 m ++ "-" ++ padInt 2 d)
      | _, _, _ => none
    else none
  | _ => none

example : get_date_string_from_dob_param (.vstr "03/15/1990") = some "1990-03-15" := by decide
example : get_date_string_from_dob_param (.vstr "3/15/1990") = some "1990-03-15" := by decide
example : get_date_string_from_dob_param (.vstr "not-a-date") = none := by decide
example : get_date_string_from_dob_param (.vstr "1990-03-15T00:00:00Z") = some "1990-03-15" := by decide
example : get_date_string_from_dob_param (.vstr "02/30/1990") = none := by decide
example :
    get_date_string_from_dob_param
      (.vdict [("year", .vnum 1990), ("month", .vnum 3), ("day", .vnum 15)]) =
      some "1990-03-15" := by decide
example :
    get_date_string_from_dob_param
      (.vdict [("year", .vnum 1990), ("month", .vnum 13), ("day", .vnum 45)]) =
      some "1990-13-45" := by decide

/-! ## The document store

The Firestore collections the source queries (`doctors`,
`doctor_availability`, `patients`, `appointments`) are modelled as lists of
records inside a single `Store` value. -/

/-- A `doctors` collection document. -/
structure Doctor where
  id : String
  name : String
  specialty : String
  clinic_address : String
  accepted_insurances : List String
deriving DecidableEq, Repr

/-- A `doctor_availability` collection document, together with its document
id (the source reads `appointment_doc.id`). -/
structure AvailSlot where
  id : String
  doctor_id : String
  is_booked : Bool
  time_slot : Nat
deriving DecidableEq, Repr

/-- A `patients` collection document. -/
structure Patient where
  firstName : String
  lastName : String
  dob : String
  email : String
deriving DecidableEq, Repr

/-- An `appointments` collection document (the Booking Record written by
`book_appointment`, lines 308-316; note it carries no slot identity, only
denormalized doctor fields). -/
structure Appointment where
  patient_name : String
  patient_email : String
  doctor_name : String
  clinic_address : String
  time_slot : Nat
  symptoms : List String
  booking_date : Nat
deriving DecidableEq, Repr

/-- The whole document store. -/
structure Store where
  doctors : List Doctor
  doctor_availability : List AvailSlot
  patients : List Patient
  appointments : List Appointment
deriving DecidableEq, Repr

/-- The denormalized Slot Candidate the resolver sends back to the caller
(`appointment_data` plus `id`, `name`, `clinic_address`; lines 118-126). -/
structure Candidate where
  id : String
  doctor_id : String
  is_booked : Bool
  time_slot : Nat
  name : String
  clinic_address : String
deriving DecidableEq, Repr

/-! ## Availability Resolver (src/main.py lines 67-132) -/

/-- The order-by time_slot limit-1 query tail: the earliest slot of a list
(ties keep the earlier document, which does not matter to any claim). -/
def earliestSlot : List AvailSlot → Option AvailSlot
  | [] => none
  | s :: rest =>
    match earliestSlot rest with
    | none => some s
    | some t => if s.time_slot ≤ t.time_slot then some s else some t

/-- The upcoming-weekend window of lines 96-99: `days_until_saturday` uses the
modulo-7 offset to the coming Saturday (Python `weekday()` is 0 on Monday, so
Saturday is 5; `(5 - weekday + 7) % 7` is written with the `+ 7` first so Nat
subtraction never truncates), `start_of_weekend` is midnight of that Saturday
and the window covers two days. -/
def weekendWindow (now : Nat) : Nat × Nat :=
  let weekday := (now / 1440) % 7
  let days_until_saturday := (5 + 7 - weekday) % 7
  let next_saturday := now + days_until_saturday * 1440
  let start_of_weekend := (next_saturday / 1440) * 1440
  (start_of_weekend, start_of_weekend + 2 * 1440)

/-- The weekend query of lines 101-107: unbooked slots of the doctor with
`start_of_weekend <= time_slot < end_of_weekend`, earliest first. -/
def weekendQuery (store : Store) (now : Nat) (doctor_id : String) : Option AvailSlot :=
  earliestSlot (store.doctor_availability.filter
    (fun s => s.doctor_id == doctor_id && s.is_booked == false &&
      decide ((weekendWindow now).1 ≤ s.time_slot) &&
      decide (s.time_slot < (weekendWindow now).2)))

/-- The 30-day fallback query of lines 110-116: unbooked slots of the doctor
with `now < time_slot < now + 30 days`, earliest first. -/
def anyDayQuery (store : Store) (now : Nat) (doctor_id : String) : Option AvailSlot :=
  earliestSlot (store.doctor_availability.filter
    (fun s => s.doctor_id == doctor_id && s.is_booked == false &&
      decide (now < s.time_slot) && decide (s.time_slot < now + 30 * 1440)))

/-- Lines 118-126: the appointment document enriched with its document id and
the display data of the doctor. -/
def candidateOf (doc : Doctor) (s : AvailSlot) : Candidate :=
  { id := s.id, doctor_id := s.doctor_id, is_booked := s.is_booked,
    time_slot := s.time_slot, name := doc.name, clinic_address := doc.clinic_address }

/-- The per-doctor two-phase search of lines 92-126: the weekend query first,
the 30-day query only if the weekend query found nothing, `none` if neither
found a slot. -/
def doctorCandidate (store : Store) (now : Nat) (doc : Doctor) : Option Candidate :=
  match weekendQuery store now doc.id with
  | some s => some (candidateOf doc s)
  | none =>
    match anyDayQuery store now doc.id with
    | some s => some (candidateOf doc s)
    | none => none

/-- `get_available_doctors` (lines 67-132): doctors are enumerated in store
order, filtered on specialty, and each contributes at most one candidate. -/
def get_available_doctors (store : Store) (now : Nat) (specialty : String) :
    List Candidate :=
  (store.doctors.filter (fun d => d.specialty == specialty)).filterMap
    (doctorCandidate store now)

/-! ## Insurance Evaluator (src/main.py lines 134-169) -/

/-- `check_insurance_and_cost`: doctor lookup by display name, membership test
of the provider in `accepted_insurances`, fixed demo cost figures. -/
def check_insurance_and_cost (store : Store) (doctor_name insurance_provider : String) :
    String × Option String × Option String :=
  match store.doctors.find? (fun d => d.name == doctor_name) with
  | none => ("Sorry, I can\x27t find information for that doctor.", none, none)
  | some d =>
    if d.accepted_insurances.contains insurance_provider then
      ("Your visit is covered by your insurance.", some "$50", some "$25")
    else
      ("This doctor does not accept your insurance.", some "$50", none)

/-! ## Patient Lookup (src/main.py lines 171-202) -/

/-- `find_user_email`: exact match on first name, last name and normalized
date of birth; first matching document wins. -/
def find_user_email (store : Store) (first_name last_name dobStr : String) :
    Option String :=
  (store.patients.find?
    (fun u => u.firstName == first_name && u.lastName == last_name && u.dob == dobStr)).map
    (fun u => u.email)

/-! ## Doctor-Choice Resolver (src/main.py lines 332-364) -/

/-- The ordinal vocabulary of line 347. -/
def number_words : List String := ["first", "second", "third", "fourth", "fifth"]

/-- The loop of lines 348-355: the index of the first ordinal word occurring
as a substring of the lowered choice string. -/
def findOrdinalAux : List String → Nat → String → Option Nat
  | [], _, _ => none
  | w :: ws, i, c => if pythonIn w c then some i else findOrdinalAux ws (i + 1) c

/-- Index selected by the ordinal-word scan, if any word matches. -/
def findOrdinalIdx (choice_lower : String) : Option Nat :=
  findOrdinalAux number_words 0 choice_lower

/-- `[a-zA-Z]` test for the name capture group. -/
def isAlphaAZ (c : Char) : Bool :=
  ('a' ≤ c && c ≤ 'z') || ('A' ≤ c && c ≤ 'Z')

/-- `[a-zA-Z\s]` test for the name capture group. -/
def isNameChar (c : Char) : Bool :=
  isAlphaAZ c || isSpacePy c

/-- One attempted match of the pattern `dr\.?\s+([a-zA-Z\s]+)` (IGNORECASE)
anchored at the head of the character list, returning the capture group.
After the literal `dr` and an optional dot there is a whitespace run of
length W followed by the remainder R.  The greedy `\s+` first takes all W
characters; if R starts with a letter the capture is the maximal
letter-or-whitespace run of R.  Otherwise the engine backtracks one
whitespace character out of `\s+` (possible only when W is at least 2) and
the capture is that single whitespace character — downstream it strips to
the empty string, which substring-matches every candidate name, so the
resolver returns the first candidate.  With W = 1 and no letter the position
fails. -/
def matchDrAt : List Char → Option (List Char)
  | c1 :: c2 :: rest =>
    if (c1 == 'd' || c1 == 'D') && (c2 == 'r' || c2 == 'R') then
      let rest1 := match rest with
        | '.' :: r => r
        | r => r
      let ws := rest1.takeWhile isSpacePy
      let afterWs := rest1.dropWhile isSpacePy
      if ws.isEmpty then none
      else
        let nm := afterWs.takeWhile isNameChar
        if nm.isEmpty then
          if 2 ≤ ws.length then
            match ws.getLast? with
            | some w => some [w]
            | none => none
          else none
        else some nm
    else none
  | _ => none

/-- `re.search` of the pattern: try every start position left to right. -/
def searchDrName : List Char → Option (List Char)
  | [] => none
  | c :: cs =>
    match matchDrAt (c :: cs) with
    | some nm => some nm
    | none => searchDrName cs

/-- `get_doctor_from_choice` (lines 332-364): ordinal words first (an
out-of-range index returns `None` at once), otherwise a `Dr.`-name capture
matched case-insensitively by substring against candidate names. -/
def get_doctor_from_choice (doctor_info_list : List Candidate) (choice_string : String) :
    Option Candidate :=
  let choice_lower := lowerString choice_string
  match findOrdinalIdx choice_lower with
  | some i => doctor_info_list[i]?
  | none =>
    match searchDrName choice_string.toList with
    | some raw =>
      let nm := String.mk (stripChars raw)
      doctor_info_list.find?
        (fun d => pythonIn (lowerString nm) (lowerString d.name))
    | none => none

/-- Example candidates used across concrete test theorems. -/
def candA : Candidate :=
  { id := "slotA", doctor_id := "docA", is_booked := false, time_slot := 7300,
    name := "Dr. Alice Jones", clinic_address := "1 Alpha St" }

def candB : Candidate :=
  { id := "slotB", doctor_id := "docB", is_booked := false, time_slot := 7400,
    name := "Dr. John Smith", clinic_address := "2 Beta St" }

def candC : Candidate :=
  { id := "slotC", doctor_id := "docC", is_booked := false, time_slot := 7500,
    name := "Dr. Carol Lee", clinic_address := "3 Gamma St" }

example : get_doctor_from_choice [candA, candB, candC] "second one" = some candB := by decide
example : get_doctor_from_choice [candA, candB, candC] "Dr. Smith" = some candB := by decide
example : get_doctor_from_choice [candA, candB, candC] "tenth" = none := by decide
example : get_doctor_from_choice [candA, candB] "the third one" = none := by decide
example : get_doctor_from_choice [candA, candB, candC] "dr  5" = some candA := by decide
example : get_doctor_from_choice [candA, candB, candC] "dr 5" = none := by decide
example : get_doctor_from_choice [] "dr  5" = none := by decide
example : searchDrName ("dr\t\t5".toList) = some ['\t'] := by decide
example : searchDrName ("dr   5".toList) = some [' '] := by decide
example : searchDrName ("dr ".toList) = none := by decide

/-! ## Booking Transactor (src/main.py lines 262-330)

The source performs three separate interactions with the store:
1. a pre-check read of the availability document outside any transaction
   (lines 283-286);
2. one Firestore transaction that re-reads the document and conditionally
   sets `is_booked` (lines 289-301) — this is the only atomic step;
3. a plain `add` that appends the Booking Record to the `appointments`
   collection, outside the transaction (lines 305-318).
Each is modelled as one atomic store operation. -/

/-- Fetch the availability document with the given document id. -/
def slotLookup (store : Store) (id : String) : Option AvailSlot :=
  store.doctor_availability.find? (fun s => s.id == id)

/-- The booked flag of the slot, as observed in a store state. -/
def SB (store : Store) (id : String) : Option Bool :=
  (slotLookup store id).map (fun s => s.is_booked)

/-- The update performed inside the transaction: set is_booked to True on
the addressed document. -/
def bookSlotWrite (store : Store) (id : String) : Store :=
  { store with
    doctor_availability := store.doctor_availability.map
      (fun s => if s.id == id then { s with is_booked := true } else s) }

/-- `update_in_transaction` (lines 289-301) as one atomic operation: re-read
the document inside the transaction; if it is missing or already booked the
transaction raises (caught at line 325, so the call returns `False`),
otherwise the flag is set. -/
def update_in_transaction (store : Store) (id : String) : Store × Bool :=
  match slotLookup store id with
  | none => (store, false)
  | some s => if s.is_booked then (store, false) else (bookSlotWrite store id, true)

/-- `appointments_ref.add(new_appointment_data)` (line 318). -/
def addRecord (store : Store) (r : Appointment) : Store :=
  { store with appointments := store.appointments ++ [r] }

/-- `new_appointment_data` (lines 308-316): the Booking Record built from the
user and the denormalized Slot Candidate. -/
def mkAppointmentRecord (user_name user_email : String) (c : Candidate)
    (symptoms : List String) (now : Nat) : Appointment :=
  { patient_name := user_name, patient_email := user_email, doctor_name := c.name,
    clinic_address := c.clinic_address, time_slot := c.time_slot,
    symptoms := symptoms, booking_date := now }

/-- `book_appointment` (lines 262-330): pre-check read, conditional-update
transaction, then the separate Booking Record append; returns the final store
and the success boolean. -/
def book_appointment (store : Store) (appointment_doc_id user_name user_email : String)
    (selected_doctor_object : Candidate) (symptoms : List String) (now : Nat) :
    Store × Bool :=
  match slotLookup store appointment_doc_id with
  | none => (store, false)
  | some s =>
    if s.is_booked then (store, false)
    else
      match update_in_transaction store appointment_doc_id with
      | (s1, true) =>
          (addRecord s1
            (mkAppointmentRecord user_name user_email selected_doctor_object symptoms now),
           true)
      | (s1, false) => (s1, false)

/-- The sequence of store states a concurrent reader can observe during one
`book_appointment` call: the state before the call, the state after the
transaction commits, and the state after the Booking Record append.  The
final state and outcome agree with `book_appointment`. -/
def book_appointment_states (store : Store) (appointment_doc_id user_name user_email : String)
    (selected_doctor_object : Candidate) (symptoms : List String) (now : Nat) :
    List Store × Bool :=
  match slotLookup store appointment_doc_id with
  | none => ([store], false)
  | some s =>
    if s.is_booked then ([store], false)
    else
      match update_in_transaction store appointment_doc_id with
      | (s1, true) =>
          ([store, s1,
            addRecord s1
              (mkAppointmentRecord user_name user_email selected_doctor_object symptoms now)],
           true)
      | (s1, false) => ([store, s1], false)

/-! ### Concurrent booking attempts

Two interleaved `book_appointment` calls are modelled as a small-step machine:
each process performs, in order, the pre-check read, the atomic conditional
update, and the record append; the scheduler (a list of booleans) picks which
process performs its next atomic operation. -/

/-- Program counter of one in-flight `book_appointment` call. -/
inductive BookPC where
  | precheck
  | txn
  | addrec
  | done
deriving DecidableEq, Repr

/-- One in-flight `book_appointment` call: program counter and, once the call
has returned, its boolean result. -/
structure BookProc where
  pc : BookPC
  result : Option Bool
deriving DecidableEq, Repr

/-- One atomic step of a `book_appointment` call against the shared store. -/
def bookStep (id : String) (rec : Appointment) (store : Store) (p : BookProc) :
    Store × BookProc :=
  match p.pc with
  | .precheck =>
    (match slotLookup store id with
     | none => (store, ⟨.done, some false⟩)
     | some s =>
       if s.is_booked then (store, ⟨.done, some false⟩) else (store, ⟨.txn, none⟩))
  | .txn =>
    (match update_in_transaction store id with
     | (s1, true) => (s1, ⟨.addrec, none⟩)
     | (s1, false) => (s1, ⟨.done, some false⟩))
  | .addrec => (addRecord store rec, ⟨.done, some true⟩)
  | .done => (store, p)

/-- Run two interleaved booking attempts on the same slot id under a given
schedule (`true` steps the first process). -/
def runSched (id : String) (rec1 rec2 : Appointment) :
    List Bool → Store → BookProc → BookProc → Store × BookProc × BookProc
  | [], store, p1, p2 => (store, p1, p2)
  | b :: rest, store, p1, p2 =>
    if b then
      runSched id rec1 rec2 rest (bookStep id rec1 store p1).1 (bookStep id rec1 store p1).2 p2
    else
      runSched id rec1 rec2 rest (bookStep id rec2 store p2).1 p1 (bookStep id rec2 store p2).2

/-! ## Session Turn Dispatcher (src/main.py lines 368-589)

The webhook request is modelled as a typed view of the session parameters
(the thin JSON extraction is out of scope); `symptom_duration_days` is kept
as a raw `PVal` because the source compares it to integers without a type
check, which is a genuine fault source (a TypeError caught only by the
outermost handler).  A malformed top-level body is modelled as `none` (in the
source, `request.get_json` yields `None` and the subsequent attribute access
raises inside the same outermost handler).

A known limit of this typed view: the Slot Candidate time value is typed
numeric here, while in the source the session round-trip can turn the stored
Timestamp into a plain string, whose missing strftime raises at line 472 —
during the final booking response construction, after the booking write has
already committed.  That post-write fault also reaches the outermost handler
and yields the same apology with HTTP 500, with the store already mutated;
it is not representable in this embedding, so the fault-handling theorem
below asserts only how a fault is converted into a response and says nothing
about the store state at the moment a fault strikes. -/

/-- The session parameters the dispatcher reads (with their source defaults:
missing optional fields are `none` / empty). -/
structure RequestParams where
  symptoms_list : List String
  symptom_duration_days : PVal
  selected_doctor_name : Option String
  insurance_provider : Option String
  doctor_info_list : List Candidate
  user_name : Option String
  dob : Option PVal
  booking_confirmed : Bool
  selected_doctor_object : Option Candidate

/-- A value set in the response session parameters. -/
inductive RespVal where
  | str (v : String)
  | flag (v : Bool)
  | cand (c : Candidate)
  | cands (l : List Candidate)
deriving DecidableEq, Repr

/-- The webhook reply: optional session-parameter updates (a key mapped to
`none` is JSON null, meaning clear the field; `sessionParams = none` means the
response carries no sessionInfo at all), the fulfillment text, and the HTTP
status code. -/
structure WebhookResponse where
  sessionParams : Option (List (String × Option RespVal))
  reply : String
  status : Nat
deriving DecidableEq, Repr

/-- Truthiness of an optional string parameter (missing or empty is falsy). -/
def strTruthy : Option String → Bool
  | none => false
  | some s => !(s == "")

/-- Truthiness of the raw dob parameter. -/
def dobTruthy : Option PVal → Bool
  | none => false
  | some v => pyTruthy v

/-- The fixed generic apology of lines 585-589, returned with HTTP 500. -/
def genericApology : String :=
  "An error occurred while processing your request. Please try again later."

/-- The outermost except-handler response (lines 583-589). -/
def apologyResponse : WebhookResponse :=
  { sessionParams := none, reply := genericApology, status := 500 }

/-- The early return of lines 415-421: the date-of-birth parse failed.  Note
it carries no sessionInfo, so nothing is cleared. -/
def dobFormatErrorResponse : WebhookResponse :=
  { sessionParams := none,
    reply := "I\x27m sorry, the date of birth format is incorrect. Please use MM/DD/YYYY.",
    status := 200 }

/-- The session-parameter resets of lines 462-473: the five booking-related
fields are cleared, and `doctor_name` / `appointment_time` are echoed for the
final fulfillment message (the time rendering is abstracted to `toString`). -/
def bookingSessionResets (sdo : Option Candidate) : List (String × Option RespVal) :=
  [("booking_confirmed", none), ("selected_doctor_object", none), ("user_name", none),
   ("dob", none), ("symptoms_list", none),
   ("doctor_name", sdo.map (fun c => .str c.name)),
   ("appointment_time", sdo.map (fun c => .str (toString c.time_slot)))]

/-- The single exit of the booking-confirmation block that carries session
parameters (lines 461-479). -/
def finalBookingResponse (sdo : Option Candidate) (text : String) : WebhookResponse :=
  { sessionParams := some (bookingSessionResets sdo), reply := text, status := 200 }

/-- The booking-confirmation block (lines 399-479).  `emailOk` is the outcome
of the external mail transport (`send_confirmation_email`), which does not
touch the store.  This function is total because the candidate time value is
typed numeric; the one fault the source can raise in this block — the
line 472 strftime on a session time value that round-tripped into a plain
string, striking after the booking write — is therefore outside the
embedding (see the note above `RequestParams`), and no theorem below claims
the store is untouched when a fault occurs. -/
def bookingConfirmedBranch (store : Store) (now : Nat) (emailOk : Bool)
    (p : RequestParams) : Store × WebhookResponse :=
  match p.selected_doctor_object, p.user_name, p.dob with
  | some c, some un, some db =>
    if un == "" || !pyTruthy db then
      (store, finalBookingResponse p.selected_doctor_object
        "I\x27m sorry, I could not find the necessary details to book your appointment. Please restart the process.")
    else
      match get_date_string_from_dob_param db with
      | none => (store, dobFormatErrorResponse)
      | some fdob =>
        match find_user_email store (splitName un).1 (splitName un).2 fdob with
        | none =>
          (store, finalBookingResponse p.selected_doctor_object
            "I\x27m sorry, I could not find your information in the database. Please ensure your name and date of birth are correct.")
        | some em =>
          if c.id == "" then
            (store, finalBookingResponse p.selected_doctor_object
              "I\x27m sorry, I could not find the appointment details. Please try again.")
          else
            match book_appointment store c.id un em c p.symptoms_list now with
            | (store2, true) =>
              (store2, finalBookingResponse p.selected_doctor_object
                (if emailOk then
                  "Your appointment with Dr. " ++ c.name ++
                    " has been successfully booked! A confirmation email has been sent to " ++
                    em ++ "."
                 else
                  "Your appointment with Dr. " ++ c.name ++
                    " has been booked! However, there was an issue sending the confirmation email."))
            | (store2, false) =>
              (store2, finalBookingResponse p.selected_doctor_object
                "I\x27m sorry, that appointment time is no longer available. Please try again.")
  | _, _, _ =>
    (store, finalBookingResponse p.selected_doctor_object
      "I\x27m sorry, I could not find the necessary details to book your appointment. Please restart the process.")

/-- The insurance-check block (lines 483-518). -/
def insuranceBranch (store : Store) (p : RequestParams) (choice provider : String) :
    WebhookResponse :=
  match get_doctor_from_choice p.doctor_info_list choice with
  | some c =>
    let r := check_insurance_and_cost store c.name provider
    let covered := pythonIn "covered" r.1
    { sessionParams := some
        [("selected_doctor_object", some (.cand c)),
         ("final_status", some (.str (if covered then "covered" else "not_covered"))),
         ("doctor_info_list", some (.cands p.doctor_info_list))],
      reply :=
        (if covered then
          "Your visit is covered by your insurance. Your estimated copay is: " ++
            r.2.2.getD "" ++ ". Do you want to book this appointment with Dr. " ++
            c.name ++ "?"
         else
          "This doctor does not accept your insurance. Estimated total cost: " ++
            r.2.1.getD "" ++ ". Would you like to book this appointment anyway?"),
      status := 200 }
  | none =>
    { sessionParams := none,
      reply := "I\x27m sorry, I couldn\x27t find that doctor in my records. Can you please select one by number (e.g., \x27first one\x27) or type the full name exactly as it appears?",
      status := 200 }

/-- The formatted per-doctor list of lines 547-561 (the calendar rendering of
the slot time is abstracted to `toString`). -/
def doctorListText (l : List Candidate) : String :=
  "\n\nAvailable doctors and their specialties:\n" ++
    String.join (l.enum.map (fun ic =>
      toString (ic.1 + 1) ++ ". Dr. " ++ ic.2.name ++ "\n    - Date & Time: " ++
        toString ic.2.time_slot ++ "\n    - Clinic: " ++ ic.2.clinic_address ++ "\n"))

/-- The base recommendation text of lines 525-539. -/
def triageBaseText : SymptomOutcome → String
  | .emergency =>
    "Your symptoms may be a medical emergency. Please seek immediate medical attention by calling 999 or going to your nearest A\x26E."
  | .specialist =>
    "Based on the persistence of your symptoms for more than 14 days, we recommend you book an appointment with a specialist."
  | .gp =>
    "Given your symptoms have lasted for more than 3 days, we recommend you book an appointment to see a GP."
  | .self_care =>
    "Your symptoms appear to be mild. We recommend self-care measures such as rest, hydration, and over-the-counter remedies."

/-- The symptom-analysis block (lines 520-581): triage, then doctor search
for gp/specialist outcomes, candidate list stored back into the session. -/
def triageBranch (store : Store) (now : Nat) (symptoms_list : List String) (d : Int) :
    WebhookResponse :=
  let result := symptom_result symptoms_list d
  let available :=
    if result = .gp ∨ result = .specialist then
      get_available_doctors store now (outcomeString result)
    else []
  let text :=
    triageBaseText result ++
      (if result = .gp ∨ result = .specialist then
        (if available.isEmpty then
          " There are no available doctors at this time. Please try again later."
         else
          doctorListText available ++
            "\nWould you like to check if your insurance covers your visit with any of these doctors?")
       else "")
  { sessionParams := some
      [("symptom_result", some (.str (outcomeString result))),
       ("doctor_available", some (.flag (!available.isEmpty))),
       ("doctor_info_list", some (.cands available))],
    reply := text, status := 200 }

/-- Conversion used by the duration comparisons of lines 529-533
(`symptom_duration_days >= 14`): numbers and booleans compare, every other
shape raises a TypeError that only the outermost handler catches. -/
def asDurationNum : PVal → Except Unit Int
  | .vnum n => .ok n
  | .vbool b => .ok (if b then 1 else 0)
  | _ => .error ()

/-- The body of the try-block (lines 376-581): booking confirmation first,
then the insurance check, then symptom analysis.  The emergency-keyword test
precedes any duration comparison (lazy `elif`), so a malformed duration only
faults on the non-emergency path. -/
def turnBody (store : Store) (now : Nat) (emailOk : Bool) (p : RequestParams) :
    Except Unit (Store × WebhookResponse) :=
  if p.booking_confirmed then
    .ok (bookingConfirmedBranch store now emailOk p)
  else if strTruthy p.selected_doctor_name && strTruthy p.insurance_provider &&
      !p.doctor_info_list.isEmpty then
    .ok (store,
      insuranceBranch store p (p.selected_doctor_name.getD "") (p.insurance_provider.getD ""))
  else if hasEmergencyKeyword (symptomText p.symptoms_list) then
    .ok (store, triageBranch store now p.symptoms_list 0)
  else
    match asDurationNum p.symptom_duration_days with
    | .ok d => .ok (store, triageBranch store now p.symptoms_list d)
    | .error e => .error e

/-- `webhook` (lines 368-589): a malformed top-level body (`none`) or any
fault escaping the turn body reaches the outermost except-handler, which
returns the fixed apology with HTTP 500; every normal path returns 200. -/
def webhook (req : Option RequestParams) (store : Store) (now : Nat) (emailOk : Bool) :
    Store × WebhookResponse :=
  match req with
  | none => (store, apologyResponse)
  | some p =>
    match turnBody store now emailOk p with
    | .ok r => r
    | .error _ => (store, apologyResponse)

/-- A gp doctor used in concrete stores. -/
def docGP : Doctor :=
  { id := "docB", name := "Dr. John Smith", specialty := "gp",
    clinic_address := "2 Beta St", accepted_insurances := ["Acme Health"] }

/-- An unbooked weekend slot of `docGP` (with `now = 0` a Monday midnight,
the weekend window is `[7200, 10080)` minutes). -/
def slotW : AvailSlot :=
  { id := "slotB", doctor_id := "docB", is_booked := false, time_slot := 7300 }

/-- Store with one doctor and one unbooked slot. -/
def storeOpen : Store :=
  { doctors := [docGP], doctor_availability := [slotW], patients := [], appointments := [] }

/-- Store in which the only slot is already booked. -/
def storeBookedX : Store :=
  { doctors := [docGP],
    doctor_availability := [{ slotW with is_booked := true }],
    patients := [], appointments := [] }

/-- Store that does not contain the addressed slot at all. -/
def storeMissingX : Store :=
  { doctors := [docGP], doctor_availability := [], patients := [], appointments := [] }

/-- Empty store. -/
def storeEmpty : Store :=
  { doctors := [], doctor_availability := [], patients := [], appointments := [] }

/-! ## Claim theorems -/

/-- C4: for every symptom list and integer duration, the triage classifier
follows the reference cases — any emergency keyword in the joined lowercased
text gives `emergency` regardless of the duration; otherwise duration >= 14
gives `specialist`, 3 <= duration < 14 gives `gp`, and duration < 3
(including the missing-duration default 0) gives `self_care`.  The Lean
embedding is total, matching the no-exception contract for integer
durations. -/
theorem triage_classifier_matches_reference (symptoms_list : List String) (d : Int) :
    (hasEmergencyKeyword (symptomText symptoms_list) = true →
      symptom_result symptoms_list d = .emergency) ∧
    (hasEmergencyKeyword (symptomText symptoms_list) = false →
      (14 ≤ d → symptom_result symptoms_list d = .specialist) ∧
      (3 ≤ d → d < 14 → symptom_result symptoms_list d = .gp) ∧
      (d < 3 → symptom_result symptoms_list d = .self_care)) := by
  constructor
  · intro h
    simp [symptom_result, h]
  · intro h
    refine ⟨fun h14 => ?_, fun h3 h14 => ?_, fun h3 => ?_⟩ <;>
      rw [symptom_result, if_neg (by simp [h])]
    · rw [if_pos h14]
    · rw [if_neg (by omega), if_pos h3]
    · rw [if_neg (by omega), if_neg (by omega)]

/-- Witness for C4 at the boundary values. -/
theorem triage_classifier_matches_reference_w :
    symptom_result ["fever"] 5 = .gp ∧ symptom_result ["fever"] 14 = .specialist ∧
    symptom_result ["fever"] 2 = .self_care :=
  ⟨((triage_classifier_matches_reference ["fever"] 5).2 (by decide)).2.1
      (by decide) (by decide),
   ((triage_classifier_matches_reference ["fever"] 14).2 (by decide)).1 (by decide),
   ((triage_classifier_matches_reference ["fever"] 2).2 (by decide)).2.2 (by decide)⟩

/-- C6: the date-of-birth normalizer maps MM/DD/YYYY strings, ISO-8601
timestamp strings and structured year/month/day dictionaries (numeric or
numeric-string fields) to YYYY-MM-DD, and every other input shape to a parse
failure; the three round-trip examples of the spec hold. -/
theorem dob_normalizer_spec :
    get_date_string_from_dob_param (.vstr "03/15/1990") = some "1990-03-15" ∧
    get_date_string_from_dob_param
      (.vdict [("year", .vnum 1990), ("month", .vnum 3), ("day", .vnum 15)]) =
      some "1990-03-15" ∧
    get_date_string_from_dob_param (.vstr "not-a-date") = none ∧
    get_date_string_from_dob_param (.vstr "1990-03-15T00:00:00Z") = some "1990-03-15" ∧
    get_date_string_from_dob_param
      (.vdict [("year", .vstr "1990"), ("month", .vstr "3"), ("day", .vstr "15")]) =
      some "1990-03-15" ∧
    (∀ p : PVal,
      (match p with | .vstr _ => False | .vdict _ => False | _ => True) →
      get_date_string_from_dob_param p = none) := by
  refine ⟨by decide, by decide, by decide, by decide, by decide, ?_⟩
  intro p h
  cases p with
  | vstr s => exact h.elim
  | vdict f => exact h.elim
  | vnum n => rfl
  | vbool b => rfl
  | vnull => rfl
  | vlist l => rfl

/-- Witness for C6: a numeric top-level value is not a recognised shape. -/
theorem dob_normalizer_spec_w :
    get_date_string_from_dob_param (.vnum 5) = none :=
  dob_normalizer_spec.2.2.2.2.2 (.vnum 5) trivial

/-- C10: on the dictionary path the normalizer formats whatever integers the
three fields convert to, without calendar validation; in particular
year 1990, month 13, day 45 yields the string 1990-13-45 instead of a parse
failure. -/
theorem dob_dict_no_calendar_validation :
    (∀ (fields : List (String × PVal)) (y m d : Int),
      (lookupField fields "year").bind toIntPy = some y →
      (lookupField fields "month").bind toIntPy = some m →
      (lookupField fields "day").bind toIntPy = some d →
      get_date_string_from_dob_param (.vdict fields) =
        some (padInt 4 y ++ "-" ++ padInt 2 m ++ "-" ++ padInt 2 d)) ∧
    get_date_string_from_dob_param
      (.vdict [("year", .vnum 1990), ("month", .vnum 13), ("day", .vnum 45)]) =
      some "1990-13-45" := by
  refine ⟨?_, by decide⟩
  intro fields y m d hy hm hd
  have h1 : (lookupField fields "year").isSome = true := by
    cases hl : lookupField fields "year"
    · rw [hl] at hy; simp at hy
    · rfl
  have h2 : (lookupField fields "month").isSome = true := by
    cases hl : lookupField fields "month"
    · rw [hl] at hm; simp at hm
    · rfl
  have h3 : (lookupField fields "day").isSome = true := by
    cases hl : lookupField fields "day"
    · rw [hl] at hd; simp at hd
    · rfl
  simp [get_date_string_from_dob_param, h1, h2, h3, hy, hm, hd]

/-- Witness for C10 at the month-13 day-45 dictionary. -/
theorem dob_dict_no_calendar_validation_w :
    get_date_string_from_dob_param
      (.vdict [("year", .vnum 1990), ("month", .vnum 13), ("day", .vnum 45)]) =
      some (padInt 4 1990 ++ "-" ++ padInt 2 13 ++ "-" ++ padInt 2 45) :=
  dob_dict_no_calendar_validation.1
    [("year", .vnum 1990), ("month", .vnum 13), ("day", .vnum 45)] 1990 13 45 rfl rfl rfl

/-- C7: the resolver tries the ordinal words first — a matching ordinal fully
determines the result as a 0-based list access whose out-of-range case is a
miss — and only with no ordinal match does it fall back to the Dr.-name
capture matched case-insensitively by substring; if both strategies fail the
result is `none`; the three concrete examples of the spec hold.  The name
strategy includes the whitespace-only capture of the regex: an input of dr
followed by two spaces and a digit strips the capture to the empty string,
which substring-matches every name, so the first candidate is returned. -/
theorem doctor_choice_resolver_spec (l : List Candidate) (choice : String) :
    (∀ i, findOrdinalIdx (lowerString choice) = some i →
      get_doctor_from_choice l choice = l[i]?) ∧
    (findOrdinalIdx (lowerString choice) = none →
      ∀ raw, searchDrName choice.toList = some raw →
        get_doctor_from_choice l choice =
          l.find? (fun dd =>
            pythonIn (lowerString (String.mk (stripChars raw))) (lowerString dd.name))) ∧
    (findOrdinalIdx (lowerString choice) = none → searchDrName choice.toList = none →
      get_doctor_from_choice l choice = none) ∧
    get_doctor_from_choice [candA, candB, candC] "second one" = some candB ∧
    get_doctor_from_choice [candA, candB, candC] "Dr. Smith" = some candB ∧
    get_doctor_from_choice [candA, candB, candC] "tenth" = none ∧
    get_doctor_from_choice [candA, candB, candC] "dr  5" = some candA := by
  refine ⟨?_, ?_, ?_, by decide, by decide, by decide, by decide⟩
  · intro i h
    simp [get_doctor_from_choice, h]
  · intro h raw hr
    have hr' : searchDrName choice.data = some raw := hr
    simp [get_doctor_from_choice, h, hr']
  · intro h hr
    have hr' : searchDrName choice.data = none := hr
    simp [get_doctor_from_choice, h, hr']

/-- Witness for C7: `the third one` selects index 2, which is out of range
for a two-candidate list, hence a miss. -/
theorem doctor_choice_resolver_spec_w :
    get_doctor_from_choice [candA, candB] "the third one" = [candA, candB][2]? :=
  (doctor_choice_resolver_spec [candA, candB] "the third one").1 2 (by decide)

/-- A slot returned by the limit-1 ordered query is one of the filtered
documents. -/
theorem earliestSlot_mem {l : List AvailSlot} {s : AvailSlot}
    (h : earliestSlot l = some s) : s ∈ l := by
  induction l with
  | nil => simp [earliestSlot] at h
  | cons a t ih =>
    rw [earliestSlot] at h
    cases ht : earliestSlot t with
    | none =>
      rw [ht] at h
      simp only [Option.some.injEq] at h
      subst h
      exact List.mem_cons_self a t
    | some b =>
      rw [ht] at h
      by_cases hle : a.time_slot ≤ b.time_slot
      · simp only [hle, if_true, Option.some.injEq] at h
        subst h
        exact List.mem_cons_self a t
      · simp only [hle, if_false, Option.some.injEq] at h
        subst h
        exact List.mem_cons_of_mem a (ih ht)

/-- Any candidate produced for a doctor snapshots an unbooked stored slot. -/
theorem doctorCandidate_unbooked {store : Store} {now : Nat} {doc : Doctor}
    {c : Candidate} (h : doctorCandidate store now doc = some c) :
    c.is_booked = false ∧
      ∃ s ∈ store.doctor_availability, s.id = c.id ∧ s.is_booked = false := by
  unfold doctorCandidate at h
  cases hw : weekendQuery store now doc.id with
  | some s =>
    rw [hw] at h
    injection h with h
    have hm := earliestSlot_mem hw
    have hmem := List.mem_filter.1 hm
    have hbk : s.is_booked = false := by
      have := hmem.2
      simp only [Bool.and_eq_true, beq_iff_eq] at this
      exact this.1.1.2
    refine ⟨?_, s, hmem.1, ?_, hbk⟩
    · rw [← h]; exact hbk
    · rw [← h]; rfl
  | none =>
    rw [hw] at h
    cases ha : anyDayQuery store now doc.id with
    | some s =>
      rw [ha] at h
      injection h with h
      have hm := earliestSlot_mem ha
      have hmem := List.mem_filter.1 hm
      have hbk : s.is_booked = false := by
        have := hmem.2
        simp only [Bool.and_eq_true, beq_iff_eq] at this
        exact this.1.1.2
      refine ⟨?_, s, hmem.1, ?_, hbk⟩
      · rw [← h]; exact hbk
      · rw [← h]; rfl
    | none => rw [ha] at h; exact absurd h (by simp)

/-- C5: the resolver never returns a candidate whose underlying stored slot is
booked; a weekend-phase hit fully determines the doctor candidate without
consulting the 30-day fallback; a doctor for whom neither phase finds a slot
is omitted, and with no matching doctor the result is the (valid) empty
list. -/
theorem availability_resolver_spec (store : Store) (now : Nat) (specialty : String) :
    (∀ c ∈ get_available_doctors store now specialty,
      c.is_booked = false ∧
        ∃ s ∈ store.doctor_availability, s.id = c.id ∧ s.is_booked = false) ∧
    (∀ doc s, weekendQuery store now doc.id = some s →
      doctorCandidate store now doc = some (candidateOf doc s)) ∧
    (∀ doc, weekendQuery store now doc.id = none → anyDayQuery store now doc.id = none →
      doctorCandidate store now doc = none) ∧
    (store.doctors.filter (fun d => d.specialty == specialty) = [] →
      get_available_doctors store now specialty = []) := by
  refine ⟨?_, ?_, ?_, ?_⟩
  · intro c hc
    obtain ⟨doc, _, hcand⟩ := List.mem_filterMap.1 hc
    exact doctorCandidate_unbooked hcand
  · intro doc s hw
    unfold doctorCandidate
    rw [hw]
  · intro doc hw ha
    unfold doctorCandidate
    rw [hw, ha]
  · intro h
    unfold get_available_doctors
    rw [h]
    rfl

/-- Witness for C5: with a store holding one unbooked weekend slot, the
weekend phase determines the candidate. -/
theorem availability_resolver_spec_w :
    doctorCandidate storeOpen 0 docGP = some (candidateOf docGP slotW) :=
  (availability_resolver_spec storeOpen 0 "gp").2.1 docGP slotW (by decide)

/-- C3 (amended): a call on an already-booked slot fails and performs no
write, a call on a missing slot id also fails and performs no write, and a
call on an existing unbooked slot succeeds — but both failure cases return
the same bare boolean `false`, so the caller can distinguish success from
failure, not `SlotAlreadyBooked` from `SlotNotFound`. -/
theorem booking_failure_outcomes (store : Store) (id un em : String) (c : Candidate)
    (syms : List String) (now : Nat) :
    (∀ s, slotLookup store id = some s → s.is_booked = true →
      book_appointment store id un em c syms now = (store, false)) ∧
    (slotLookup store id = none →
      book_appointment store id un em c syms now = (store, false)) ∧
    (∀ s, slotLookup store id = some s → s.is_booked = false →
      (book_appointment store id un em c syms now).2 = true) := by
  refine ⟨?_, ?_, ?_⟩
  · intro s hs hb
    simp [book_appointment, hs, hb]
  · intro hs
    simp [book_appointment, hs]
  · intro s hs hb
    simp [book_appointment, hs, hb, update_in_transaction]

/-- Counterexample for C3 as stated: the already-booked failure and the
missing-slot failure produce the very same return value (`false`), so the two
named outcomes are not distinguishable by the caller. -/
theorem booking_failure_outcomes_cx :
    (book_appointment storeBookedX "slotB" "John Smith" "js@example.com" candB ["fever"] 0).2 =
      (book_appointment storeMissingX "slotB" "John Smith" "js@example.com" candB ["fever"] 0).2 ∧
    (book_appointment storeBookedX "slotB" "John Smith" "js@example.com" candB ["fever"] 0).2 =
      false := by decide

/-- Witness for C3 (amended) at concrete stores. -/
theorem booking_failure_outcomes_w :
    book_appointment storeBookedX "slotB" "John Smith" "js@example.com" candB ["fever"] 0 =
      (storeBookedX, false) ∧
    book_appointment storeMissingX "slotB" "John Smith" "js@example.com" candB ["fever"] 0 =
      (storeMissingX, false) ∧
    (book_appointment storeOpen "slotB" "John Smith" "js@example.com" candB ["fever"] 0).2 =
      true :=
  ⟨(booking_failure_outcomes storeBookedX "slotB" "John Smith" "js@example.com" candB
      ["fever"] 0).1 { slotW with is_booked := true } (by decide) (by decide),
   (booking_failure_outcomes storeMissingX "slotB" "John Smith" "js@example.com" candB
      ["fever"] 0).2.1 (by decide),
   (booking_failure_outcomes storeOpen "slotB" "John Smith" "js@example.com" candB
      ["fever"] 0).2.2 slotW (by decide) (by decide)⟩

/-- C1: the booking write is not one indivisible operation.  A successful
call passes through an observable intermediate store state in which the slot
flag is already flipped while no Booking Record exists yet: the flag flip is
committed by the transaction and the record is appended by a separate
subsequent store operation. -/
theorem booking_intermediate_state_observable :
    (book_appointment_states storeOpen "slotB" "John Smith" "js@example.com" candB
        ["fever"] 0).2 = true ∧
    (book_appointment_states storeOpen "slotB" "John Smith" "js@example.com" candB
        ["fever"] 0).1[1]? = some (bookSlotWrite storeOpen "slotB") ∧
    SB (bookSlotWrite storeOpen "slotB") "slotB" = some true ∧
    (bookSlotWrite storeOpen "slotB").appointments = [] ∧
    (book_appointment_states storeOpen "slotB" "John Smith" "js@example.com" candB
        ["fever"] 0).1.getLast? =
      some (book_appointment storeOpen "slotB" "John Smith" "js@example.com" candB
        ["fever"] 0).1 := by decide

/-! ## The booking race (C2)

The invariant below classifies every configuration reachable by two
interleaved booking attempts on the same initially-unbooked slot: before any
transaction commits both processes are still running and nothing is written;
after the single winning transaction the slot is booked and exactly one
process proceeds to append exactly one Booking Record. -/

/-- The conditional update inside `bookSlotWrite` commutes with the lookup. -/
theorem find_map_bookUpd (l : List AvailSlot) (id : String) :
    (l.map (fun s => if s.id == id then { s with is_booked := true } else s)).find?
      (fun s => s.id == id) =
    (l.find? (fun s => s.id == id)).map (fun s => { s with is_booked := true }) := by
  induction l with
  | nil => rfl
  | cons a t ih =>
    cases h : (a.id == id) with
    | true => simp [List.find?, h]
    | false =>
      simp only [List.map_cons, h, Bool.false_eq_true, if_false, List.find?]
      exact ih

/-- Lookup after the transaction write: the addressed slot is the old one
with its flag set. -/
theorem slotLookup_bookSlotWrite (store : Store) (id : String) :
    slotLookup (bookSlotWrite store id) id =
      (slotLookup store id).map (fun s => { s with is_booked := true }) := by
  simp only [slotLookup, bookSlotWrite]
  exact find_map_bookUpd store.doctor_availability id

/-- After a committed transaction the booked flag reads true. -/
theorem SB_bookSlotWrite_true {store : Store} {id : String} {s : AvailSlot}
    (h : slotLookup store id = some s) :
    SB (bookSlotWrite store id) id = some true := by
  simp [SB, slotLookup_bookSlotWrite, h]

/-- The transaction does not touch the appointments collection. -/
theorem appointments_bookSlotWrite (store : Store) (id : String) :
    (bookSlotWrite store id).appointments = store.appointments := rfl

/-- The record append does not touch the availability collection. -/
theorem SB_addRecord (store : Store) (r : Appointment) (id : String) :
    SB (addRecord store r) id = SB store id := rfl

/-- The record append adds exactly one appointment document. -/
theorem appointments_addRecord (store : Store) (r : Appointment) :
    (addRecord store r).appointments.length = store.appointments.length + 1 := by
  simp [addRecord]

/-- Transaction outcome on an unbooked slot. -/
theorem update_tx_unbooked {store : Store} {id : String} {s : AvailSlot}
    (h : slotLookup store id = some s) (hb : s.is_booked = false) :
    update_in_transaction store id = (bookSlotWrite store id, true) := by
  simp [update_in_transaction, h, hb]

/-- Transaction outcome on an already-booked slot. -/
theorem update_tx_booked {store : Store} {id : String} {s : AvailSlot}
    (h : slotLookup store id = some s) (hb : s.is_booked = true) :
    update_in_transaction store id = (store, false) := by
  simp [update_in_transaction, h, hb]

/-- Invert an observed flag value into its underlying slot document. -/
theorem SB_elim {store : Store} {id : String} {b : Bool} (h : SB store id = some b) :
    ∃ s, slotLookup store id = some s ∧ s.is_booked = b := by
  unfold SB at h
  cases hl : slotLookup store id with
  | none => rw [hl] at h; simp at h
  | some s =>
    rw [hl] at h
    simp at h
    exact ⟨s, rfl, h⟩

/-- Process classification: still running, before its transaction. -/
def waitingP (p : BookProc) : Prop :=
  (p.pc = .precheck ∨ p.pc = .txn) ∧ p.result = none

/-- Process classification: returned `False`. -/
def failedP (p : BookProc) : Prop := p.pc = .done ∧ p.result = some false

/-- Process classification: its transaction committed, record pending. -/
def claimedP (p : BookProc) : Prop := p.pc = .addrec ∧ p.result = none

/-- Process classification: returned `True` (record appended). -/
def succeededP (p : BookProc) : Prop := p.pc = .done ∧ p.result = some true

/-- Reachability invariant of two interleaved booking attempts on slot `id`,
starting from `n0` stored appointment documents and an unbooked slot. -/
def RaceInv (id : String) (n0 : Nat) (store : Store) (p1 p2 : BookProc) : Prop :=
  (SB store id = some false ∧ store.appointments.length = n0 ∧
    waitingP p1 ∧ waitingP p2)
  ∨ (SB store id = some true ∧ store.appointments.length = n0 ∧
      ((claimedP p1 ∧ (waitingP p2 ∨ failedP p2)) ∨
       (claimedP p2 ∧ (waitingP p1 ∨ failedP p1))))
  ∨ (SB store id = some true ∧ store.appointments.length = n0 + 1 ∧
      ((succeededP p1 ∧ (waitingP p2 ∨ failedP p2)) ∨
       (succeededP p2 ∧ (waitingP p1 ∨ failedP p1))))

/-- The invariant is symmetric in the two processes. -/
theorem raceInv_swap {id : String} {n0 : Nat} {store : Store} {p1 p2 : BookProc}
    (h : RaceInv id n0 store p1 p2) : RaceInv id n0 store p2 p1 := by
  rcases h with ⟨a, b, c, d⟩ | ⟨a, b, c | c⟩ | ⟨a, b, c | c⟩
  · exact Or.inl ⟨a, b, d, c⟩
  · exact Or.inr (Or.inl ⟨a, b, Or.inr c⟩)
  · exact Or.inr (Or.inl ⟨a, b, Or.inl c⟩)
  · exact Or.inr (Or.inr ⟨a, b, Or.inr c⟩)
  · exact Or.inr (Or.inr ⟨a, b, Or.inl c⟩)

/-- A step of a process whose call has already returned changes nothing. -/
theorem bookStep_done {id : String} {rec : Appointment} {store : Store} {p : BookProc}
    (h : p.pc = .done) : bookStep id rec store p = (store, p) := by
  simp [bookStep, h]

/-- One step of the first process preserves the invariant. -/
theorem raceInv_stepL {id : String} {n0 : Nat} {store : Store} {p1 p2 : BookProc}
    (rec : Appointment) (h : RaceInv id n0 store p1 p2) :
    RaceInv id n0 (bookStep id rec store p1).1 (bookStep id rec store p1).2 p2 := by
  rcases h with ⟨hSB, hlen, ⟨hpc1, hres1⟩, hw2⟩ | ⟨hSB, hlen, hcl⟩ | ⟨hSB, hlen, hsc⟩
  · -- no transaction has committed yet
    obtain ⟨s, hs, hb⟩ := SB_elim hSB
    rcases hpc1 with hpc1 | hpc1
    · -- pre-check read on an unbooked slot: advance to the transaction
      simp only [bookStep, hpc1, hs, hb, if_false, Bool.false_eq_true]
      exact Or.inl ⟨hSB, hlen, ⟨Or.inr rfl, rfl⟩, hw2⟩
    · -- the transaction commits: the slot is claimed
      simp only [bookStep, hpc1, update_tx_unbooked hs hb]
      refine Or.inr (Or.inl ⟨SB_bookSlotWrite_true hs, ?_, Or.inl ⟨⟨rfl, rfl⟩, Or.inl hw2⟩⟩)
      rw [appointments_bookSlotWrite]
      exact hlen
  · -- one transaction has committed, its record is pending
    rcases hcl with ⟨hc1, ho2⟩ | ⟨hc2, ho1⟩
    · -- process 1 holds the claim: it appends the record and succeeds
      simp only [bookStep, hc1.1]
      refine Or.inr (Or.inr ⟨?_, ?_, Or.inl ⟨⟨rfl, rfl⟩, ho2⟩⟩)
      · rw [SB_addRecord]; exact hSB
      · rw [appointments_addRecord, hlen]
    · -- process 2 holds the claim: process 1 can only fail or idle
      obtain ⟨s, hs, hb⟩ := SB_elim hSB
      rcases ho1 with ⟨hpc1 | hpc1, hres1⟩ | hf1
      · simp only [bookStep, hpc1, hs, hb, if_true]
        exact Or.inr (Or.inl ⟨hSB, hlen, Or.inr ⟨hc2, Or.inr ⟨rfl, rfl⟩⟩⟩)
      · simp only [bookStep, hpc1, update_tx_booked hs hb]
        exact Or.inr (Or.inl ⟨hSB, hlen, Or.inr ⟨hc2, Or.inr ⟨rfl, rfl⟩⟩⟩)
      · rw [bookStep_done hf1.1]
        exact Or.inr (Or.inl ⟨hSB, hlen, Or.inr ⟨hc2, Or.inr hf1⟩⟩)
  · -- one process has fully succeeded
    rcases hsc with ⟨hs1, ho2⟩ | ⟨hs2, ho1⟩
    · rw [bookStep_done hs1.1]
      exact Or.inr (Or.inr ⟨hSB, hlen, Or.inl ⟨hs1, ho2⟩⟩)
    · obtain ⟨s, hs, hb⟩ := SB_elim hSB
      rcases ho1 with ⟨hpc1 | hpc1, hres1⟩ | hf1
      · simp only [bookStep, hpc1, hs, hb, if_true]
        exact Or.inr (Or.inr ⟨hSB, hlen, Or.inr ⟨hs2, Or.inr ⟨rfl, rfl⟩⟩⟩)
      · simp only [bookStep, hpc1, update_tx_booked hs hb]
        exact Or.inr (Or.inr ⟨hSB, hlen, Or.inr ⟨hs2, Or.inr ⟨rfl, rfl⟩⟩⟩)
      · rw [bookStep_done hf1.1]
        exact Or.inr (Or.inr ⟨hSB, hlen, Or.inr ⟨hs2, Or.inr hf1⟩⟩)

/-- One step of the second process preserves the invariant. -/
theorem raceInv_stepR {id : String} {n0 : Nat} {store : Store} {p1 p2 : BookProc}
    (rec : Appointment) (h : RaceInv id n0 store p1 p2) :
    RaceInv id n0 (bookStep id rec store p2).1 p1 (bookStep id rec store p2).2 :=
  raceInv_swap (raceInv_stepL rec (raceInv_swap h))

/-- Every schedule preserves the invariant. -/
theorem raceInv_run (id : String) (rec1 rec2 : Appointment) (n0 : Nat)
    (sched : List Bool) :
    ∀ (store : Store) (p1 p2 : BookProc), RaceInv id n0 store p1 p2 →
      RaceInv id n0 (runSched id rec1 rec2 sched store p1 p2).1
        (runSched id rec1 rec2 sched store p1 p2).2.1
        (runSched id rec1 rec2 sched store p1 p2).2.2 := by
  induction sched with
  | nil => intro store p1 p2 h; exact h
  | cons b rest ih =>
    intro store p1 p2 h
    cases b
    · exact ih _ _ _ (raceInv_stepR rec2 h)
    · exact ih _ _ _ (raceInv_stepL rec1 h)

/-- A Booking Record used in concrete race runs. -/
def recW : Appointment :=
  mkAppointmentRecord "John Smith" "js@example.com" candB ["fever"] 0

/-- C2: two interleaved booking attempts on the same initially-unbooked slot,
under any schedule that runs both to completion, produce exactly one success
and one failure; afterwards the slot reads booked and exactly one Booking
Record was appended. -/
theorem booking_race_safety (store : Store) (id : String) (rec1 rec2 : Appointment)
    (sched : List Bool) (s : AvailSlot)
    (hs : slotLookup store id = some s) (hb : s.is_booked = false)
    (h1 : (runSched id rec1 rec2 sched store ⟨.precheck, none⟩ ⟨.precheck, none⟩).2.1.pc = .done)
    (h2 : (runSched id rec1 rec2 sched store ⟨.precheck, none⟩ ⟨.precheck, none⟩).2.2.pc = .done) :
    (((runSched id rec1 rec2 sched store ⟨.precheck, none⟩ ⟨.precheck, none⟩).2.1.result =
        some true ∧
      (runSched id rec1 rec2 sched store ⟨.precheck, none⟩ ⟨.precheck, none⟩).2.2.result =
        some false) ∨
     ((runSched id rec1 rec2 sched store ⟨.precheck, none⟩ ⟨.precheck, none⟩).2.1.result =
        some false ∧
      (runSched id rec1 rec2 sched store ⟨.precheck, none⟩ ⟨.precheck, none⟩).2.2.result =
        some true)) ∧
    SB (runSched id rec1 rec2 sched store ⟨.precheck, none⟩ ⟨.precheck, none⟩).1 id =
      some true ∧
    (runSched id rec1 rec2 sched store ⟨.precheck, none⟩ ⟨.precheck, none⟩).1.appointments.length =
      store.appointments.length + 1 := by
  have hinv0 : RaceInv id store.appointments.length store ⟨.precheck, none⟩ ⟨.precheck, none⟩ :=
    Or.inl ⟨by simp [SB, hs, hb], rfl, ⟨Or.inl rfl, rfl⟩, ⟨Or.inl rfl, rfl⟩⟩
  have hrun := raceInv_run id rec1 rec2 store.appointments.length sched store _ _ hinv0
  rcases hrun with ⟨_, _, ⟨hpc, _⟩, _⟩ |
      ⟨_, _, ⟨⟨hpc, _⟩, _⟩ | ⟨⟨hpc, _⟩, _⟩⟩ |
      ⟨hSB, hlen, ⟨⟨hpc1, hr1⟩, ho⟩ | ⟨⟨hpc2, hr2⟩, ho⟩⟩
  · rcases hpc with hpc | hpc <;> rw [h1] at hpc <;> exact BookPC.noConfusion hpc
  · rw [h1] at hpc; exact BookPC.noConfusion hpc
  · rw [h2] at hpc; exact BookPC.noConfusion hpc
  · rcases ho with ⟨hw, _⟩ | ⟨_, hf⟩
    · rcases hw with hw | hw <;> rw [h2] at hw <;> exact BookPC.noConfusion hw
    · exact ⟨Or.inl ⟨hr1, hf⟩, hSB, hlen⟩
  · rcases ho with ⟨hw, _⟩ | ⟨_, hf⟩
    · rcases hw with hw | hw <;> rw [h1] at hw <;> exact BookPC.noConfusion hw
    · exact ⟨Or.inr ⟨hf, hr2⟩, hSB, hlen⟩

/-- Witness for C2: a concrete interleaving in which the first attempt claims
the slot and the second fails at its pre-check. -/
theorem booking_race_safety_w :
    (((runSched "slotB" recW recW [true, true, true, false] storeOpen
          ⟨.precheck, none⟩ ⟨.precheck, none⟩).2.1.result = some true ∧
      (runSched "slotB" recW recW [true, true, true, false] storeOpen
          ⟨.precheck, none⟩ ⟨.precheck, none⟩).2.2.result = some false) ∨
     ((runSched "slotB" recW recW [true, true, true, false] storeOpen
          ⟨.precheck, none⟩ ⟨.precheck, none⟩).2.1.result = some false ∧
      (runSched "slotB" recW recW [true, true, true, false] storeOpen
          ⟨.precheck, none⟩ ⟨.precheck, none⟩).2.2.result = some true)) ∧
    SB (runSched "slotB" recW recW [true, true, true, false] storeOpen
        ⟨.precheck, none⟩ ⟨.precheck, none⟩).1 "slotB" = some true ∧
    (runSched "slotB" recW recW [true, true, true, false] storeOpen
        ⟨.precheck, none⟩ ⟨.precheck, none⟩).1.appointments.length =
      storeOpen.appointments.length + 1 :=
  booking_race_safety storeOpen "slotB" recW recW [true, true, true, false] slotW
    (by decide) (by decide) (by decide) (by decide)

/-! ## Session clearing and fault handling (C8, C9) -/

/-- Every exit of the booking-confirmation block carries HTTP 200. -/
theorem bookingConfirmedBranch_status (store : Store) (now : Nat) (emailOk : Bool)
    (p : RequestParams) : (bookingConfirmedBranch store now emailOk p).2.status = 200 := by
  unfold bookingConfirmedBranch
  repeat first | rfl | split

/-- Every exit of the insurance-check block carries HTTP 200. -/
theorem insuranceBranch_status (store : Store) (p : RequestParams)
    (choice provider : String) : (insuranceBranch store p choice provider).status = 200 := by
  unfold insuranceBranch
  split <;> rfl

/-- A turn body that returns normally always carries HTTP 200. -/
theorem turnBody_ok_status {store : Store} {now : Nat} {emailOk : Bool}
    {p : RequestParams} {r : Store × WebhookResponse}
    (h : turnBody store now emailOk p = .ok r) : r.2.status = 200 := by
  unfold turnBody at h
  split at h
  · cases h
    exact bookingConfirmedBranch_status store now emailOk p
  · split at h
    · cases h
      exact insuranceBranch_status store p _ _
    · split at h
      · cases h
        rfl
      · split at h
        · cases h
          rfl
        · exact Except.noConfusion h

/-- C9 (amended): a malformed top-level body and any fault escaping the turn
body are both converted into the fixed generic apology reply — but returned
with HTTP status 500, not 200; only fault-free turns return 200.  Nothing is
asserted about the store at a fault: in the source a fault can strike after
the booking write (the line 472 formatting of an ill-typed session time
value), so the apology does not imply an untouched store. -/
theorem webhook_fault_handling (req : Option RequestParams) (store : Store)
    (now : Nat) (emailOk : Bool) :
    (req = none → (webhook req store now emailOk).2 = apologyResponse) ∧
    (∀ p, req = some p → ∀ e, turnBody store now emailOk p = .error e →
      (webhook req store now emailOk).2 = apologyResponse) ∧
    (∀ p r, req = some p → turnBody store now emailOk p = .ok r →
      webhook req store now emailOk = r ∧ r.2.status = 200) ∧
    apologyResponse.status = 500 ∧ apologyResponse.reply = genericApology := by
  refine ⟨fun h => ?_, fun p hp e he => ?_, fun p r hp hok => ?_, rfl, rfl⟩
  · rw [h]
    rfl
  · rw [hp]
    simp [webhook, he]
  · rw [hp]
    exact ⟨by simp [webhook, hok], turnBody_ok_status hok⟩

/-- A parseable request whose turn processing faults: the duration parameter
is a non-numeric string, so the comparison `symptom_duration_days >= 14`
raises a TypeError caught only by the outermost handler. -/
def reqFaultyDuration : RequestParams :=
  { symptoms_list := ["cough"], symptom_duration_days := .vstr "soon",
    selected_doctor_name := none, insurance_provider := none, doctor_info_list := [],
    user_name := none, dob := none, booking_confirmed := false,
    selected_doctor_object := none }

/-- A parseable request whose turn processing completes normally. -/
def reqTriageOk : RequestParams :=
  { reqFaultyDuration with symptom_duration_days := .vnum 5 }

/-- C9 counterexample: an uncaught fault during the processing of a
parseable body yields the apology with HTTP 500, not 200. -/
theorem webhook_fault_returns_500_cx :
    (webhook (some reqFaultyDuration) storeEmpty 0 true).2.reply = genericApology ∧
    (webhook (some reqFaultyDuration) storeEmpty 0 true).2.status = 500 ∧
    ¬(webhook (some reqFaultyDuration) storeEmpty 0 true).2.status = 200 := by decide

/-- Witness for C9 (amended) on a concrete fault-free turn. -/
theorem webhook_fault_handling_w :
    webhook (some reqTriageOk) storeEmpty 0 true =
      (storeEmpty, triageBranch storeEmpty 0 ["cough"] 5) ∧
    (storeEmpty, triageBranch storeEmpty 0 ["cough"] 5).2.status = 200 :=
  (webhook_fault_handling (some reqTriageOk) storeEmpty 0 true).2.2.1 reqTriageOk
    (storeEmpty, triageBranch storeEmpty 0 ["cough"] 5) rfl rfl

end SymptomsAnalyzer
